import Mathlib

set_option autoImplicit false
set_option maxRecDepth 1024

/-!
Verification of the event buffering and batch-flush pipeline
(`apps/api/src/services/eventIngestion.service.ts` and its collaborators,
`apps/api/src/controllers/events.controller.ts` and
`apps/api/src/repositories/event.repository.ts`).

The service is a single-threaded (event-loop) object holding a buffer of
normalized events.  Its async `flush` method runs synchronously up to the
`await this.repository.bulkInsert(batch)` and resumes afterwards; we embed it
as two functions: `beginFlush` (mutex check, empty check, flag set, batch
extraction via `splice`) and `endFlush` (the `catch` re-queue and the
`finally` cleanup).  the fire-and-forget size trigger of `addEvent` calls `flush()`
whose synchronous prefix runs inside `addEvent`, so `beginFlush` is inlined
there.  Time is passed explicitly (`now`, in milliseconds) where the code
reads the clock or arms `setTimeout`.
-/

namespace EventPipeline

/-- Embeds the `EventType` enum of `packages/types/src/auth.types.ts`. -/
inductive EventType where
  | session_start
  | page_view
  | search
  | purchase
  | add_to_cart
  | remove_from_cart
  | button_click
  | form_submit
  | video_play
  | video_pause
  deriving DecidableEq, Repr

/-- Embeds `NormalizedEvent` (`event.repository.ts` / `IEvent` of
`packages/types`): the canonical unit the pipeline operates on.  The payload
is an uninterpreted key-value map the core never inspects; dates are embedded as
integer timestamps. -/
structure NormalizedEvent where
  eventId : String
  userId : String
  sessionId : String
  type : EventType
  payload : List (String × String)
  occurredAt : Int
  receivedAt : Int
  deriving DecidableEq, Repr

/-- `maxBufferSize` constant of `EventIngestionService` (flush when buffer
reaches this size). -/
def maxBufferSize : Nat := 500

/-- `flushIntervalMs` constant of `EventIngestionService`. -/
def flushIntervalMs : Nat := 1000

/-- `emergencyThreshold` constant of `EventIngestionService` (drop events
beyond this). -/
def emergencyThreshold : Nat := 5000

/-- Modelled from the spec: the backpressure threshold used by the admission
check `canAcceptEvent`.  The implementation of `canAcceptEvent` is not among
the provided sources (only its caller `EventsController.ingestEvent` and the
service test suite reference it); the concrete scenario in the spec and the test
suite both fix the threshold at 10000. -/
def backpressureThreshold : Nat := 10000

/-- The mutable state of one `EventIngestionService` instance.
`inFlightBatch` models the local `batch` variable of a `flush` call that is
suspended at `await bulkInsert(batch)`; `flushLog` is a history variable
recording each batch handed to `repository.bulkInsert`, in order. -/
structure ServiceState where
  buffer : List NormalizedEvent
  flushTimer : Option Nat
  isFlushingInProgress : Bool
  inFlightBatch : Option (List NormalizedEvent)
  flushLog : List (List NormalizedEvent)
  deriving DecidableEq, Repr

/-- State of a freshly constructed service: empty buffer, no timer, no flush
in progress. -/
def initialState : ServiceState :=
  { buffer := []
    flushTimer := none
    isFlushingInProgress := false
    inFlightBatch := none
    flushLog := [] }

/-- Embeds `resetFlushTimer`: clear any pending timer and arm a new one-shot
timer `flushIntervalMs` in the future (debounce). -/
def resetFlushTimer (now : Nat) (s : ServiceState) : ServiceState :=
  { s with flushTimer := some (now + flushIntervalMs) }

/-- Embeds the synchronous prefix of `flush()` (lines 102-123): the mutex
check, the empty-buffer check, acquiring the mutex flag, and the atomic batch
extraction `this.buffer.splice(0, this.maxBufferSize)`.  The extracted batch
is recorded in `flushLog` as it is handed to `repository.bulkInsert`. -/
def beginFlush (s : ServiceState) : ServiceState :=
  if s.isFlushingInProgress then s
  else if s.buffer.length = 0 then s
  else
    { s with
      isFlushingInProgress := true
      inFlightBatch := some (s.buffer.take maxBufferSize)
      buffer := s.buffer.drop maxBufferSize
      flushLog := s.flushLog ++ [s.buffer.take maxBufferSize] }

/-- Embeds the resumption of `flush()` after `await bulkInsert` settles
(lines 125-161): on rejection the `catch` block re-queues the batch to the
front of the buffer (`this.buffer.unshift(...batch)`); the `finally` block
releases the mutex flag and rearms the flush timer in either case. -/
def endFlush (now : Nat) (success : Bool) (s : ServiceState) : ServiceState :=
  match s.inFlightBatch with
  | none => s
  | some batch =>
    let s1 : ServiceState :=
      if success then s else { s with buffer := batch ++ s.buffer }
    resetFlushTimer now
      { s1 with isFlushingInProgress := false, inFlightBatch := none }

/-- Embeds `addEvent` (lines 53-90): emergency-threshold drop check, append,
size-based flush trigger (the triggered `flush()` runs synchronously up to
its `await`, hence `beginFlush` here), then `resetFlushTimer`.  On the drop
path the method returns early, so the timer is not reset.  The buffer-growth
log statement has no state effect and is omitted. -/
def addEvent (now : Nat) (event : NormalizedEvent) (s : ServiceState) :
    ServiceState :=
  if emergencyThreshold ≤ s.buffer.length then s
  else
    let s1 : ServiceState := { s with buffer := s.buffer ++ [event] }
    let s2 : ServiceState :=
      if maxBufferSize ≤ s1.buffer.length ∧ s1.isFlushingInProgress = false
      then beginFlush s1
      else s1
    resetFlushTimer now s2

/-- A sequence of `addEvent` calls (left to right). -/
def addMany (now : Nat) (events : List NormalizedEvent) (s : ServiceState) :
    ServiceState :=
  events.foldl (fun acc e => addEvent now e acc) s

/-- Embeds the `setTimeout` callback armed by `resetFlushTimer`
(lines 180-188): when the armed one-shot timer fires, flush if the buffer has
events and no flush is in progress.  The `setTimeout` handle is one-shot, so
the timer is consumed by firing. -/
def timerFire (now : Nat) (s : ServiceState) : ServiceState :=
  if s.flushTimer = some now then
    let s1 : ServiceState := { s with flushTimer := none }
    if 0 < s1.buffer.length ∧ s1.isFlushingInProgress = false
    then beginFlush s1
    else s1
  else s

/-- Outcome of the underlying `Event.insertMany` call as observed by
`EventRepository.bulkInsert`: either the promise resolves, or it rejects with
an error carrying a numeric `code` and a `name`. -/
inductive InsertOutcome where
  | resolved
  | rejected (code : Int) (name : String)
  deriving DecidableEq, Repr

/-- Error propagated out of `bulkInsert` (code and name of the driver
error). -/
structure StorageError where
  code : Int
  name : String
  deriving DecidableEq, Repr

/-- Embeds `EventRepository.bulkInsert` error classification (lines 53-76):
a rejection whose `code` is `11000` or whose `name` is
`MongoBulkWriteError` is swallowed (the method returns normally); every
other rejection propagates to the caller. -/
def bulkInsert (outcome : InsertOutcome) : Except StorageError Unit :=
  match outcome with
  | .resolved => .ok ()
  | .rejected code name =>
    if code = 11000 ∨ name = "MongoBulkWriteError" then .ok ()
    else .error { code := code, name := name }

/-- The flush resumption as driven by the repository: the `try` of `flush()`
succeeds exactly when `bulkInsert` returns normally, and its `catch`
(re-queue) runs exactly when `bulkInsert` throws. -/
def completeFlush (now : Nat) (outcome : InsertOutcome) (s : ServiceState) :
    ServiceState :=
  match bulkInsert outcome with
  | .ok _ => endFlush now true s
  | .error _ => endFlush now false s

/-- Embeds the record returned by `getStats` (lines 236-244).  The utilization
is the JS float `(this.buffer.length / this.maxBufferSize) * 100`, embedded
in `ℚ`. -/
structure BufferStats where
  bufferSize : Nat
  isFlushingInProgress : Bool
  maxBufferSize : Nat
  emergencyThreshold : Nat
  bufferUtilization : ℚ
  deriving Repr

/-- Embeds `getStats`. -/
def getStats (s : ServiceState) : BufferStats :=
  { bufferSize := s.buffer.length
    isFlushingInProgress := s.isFlushingInProgress
    maxBufferSize := maxBufferSize
    emergencyThreshold := emergencyThreshold
    bufferUtilization :=
      ((s.buffer.length : ℚ) / (maxBufferSize : ℚ)) * 100 }

/-- Modelled from the spec: the Buffer Manager admission check.  It is called
by `EventsController.ingestEvent` and by the service test suite, but its
implementation is not among the provided sources; per the spec it returns
false once the queue length is at or above `backpressureThreshold`, and it is
a pure read. -/
def canAcceptEvent (s : ServiceState) : Bool :=
  decide (s.buffer.length < backpressureThreshold)

/-- Modelled from the spec: `canAcceptEvent` in state-passing form, making
explicit that the admission check returns the buffer state it was given. -/
def canAcceptEventSt (s : ServiceState) : Bool × ServiceState :=
  (canAcceptEvent s, s)

/-- HTTP response produced by the ingestion endpoint, reduced to the fields
the claims are about. -/
structure IngestResponse where
  status : Nat
  eventIds : List String
  deriving DecidableEq, Repr

/-- Embeds `EventsController.ingestEvent` for one already-normalized event
(validation and normalization happen upstream of the core and are assumed to
have succeeded): reject with 429 when `canAcceptEvent` is false, otherwise
call `addEvent` and answer 202 with the event id. -/
def ingestEvent (now : Nat) (e : NormalizedEvent) (s : ServiceState) :
    IngestResponse × ServiceState :=
  if canAcceptEvent s = false then
    ({ status := 429, eventIds := [] }, s)
  else
    let s1 := addEvent now e s
    ({ status := 202, eventIds := [e.eventId] }, s1)

/-- Embeds the loop of `forceFlush` (lines 200-222) under an explicit
schedule of storage outcomes, one per flush attempt (`true` = the awaited
`bulkInsert` resolves).  The schedule length bounds the number of attempts;
`none` means the schedule was exhausted with events still queued.  The
hypotheses of the drain theorem require the caller to be quiescent (no flush
suspended mid-await), which is what the inner busy-wait loop of the source
establishes before each flush. -/
def forceFlushLoop (now : Nat) : List Bool → ServiceState → Option ServiceState
  | [], s => if s.buffer.length = 0 then some s else none
  | ok :: rest, s =>
    if s.buffer.length = 0 then some s
    else forceFlushLoop now rest (endFlush now ok (beginFlush s))

/-- Embeds `forceFlush`: clear the flush timer, then flush until the buffer
is empty, awaiting each flush. -/
def forceFlush (now : Nat) (sched : List Bool) (s : ServiceState) :
    Option ServiceState :=
  forceFlushLoop now sched { s with flushTimer := none }

/-- States reachable from a freshly constructed service by any interleaving
of the operations the event loop can run: an `addEvent` call, the flush
timer firing, a flush starting (size trigger, timer, or drain loop), a
suspended flush resuming (success or failure), and the drain entry clearing
the timer. -/
inductive Reachable : ServiceState → Prop where
  | init : Reachable initialState
  | add (now : Nat) (e : NormalizedEvent) {s : ServiceState} :
      Reachable s → Reachable (addEvent now e s)
  | timer (now : Nat) {s : ServiceState} :
      Reachable s → Reachable (timerFire now s)
  | flushStart {s : ServiceState} :
      Reachable s → Reachable (beginFlush s)
  | flushEnd (now : Nat) (success : Bool) {s : ServiceState} :
      Reachable s → Reachable (endFlush now success s)
  | clearTimer {s : ServiceState} :
      Reachable s → Reachable { s with flushTimer := none }

/-- A concrete event used to instantiate theorems. -/
def sampleEvent : NormalizedEvent :=
  { eventId := "evt-0"
    userId := "user-0"
    sessionId := "sess-0"
    type := .page_view
    payload := []
    occurredAt := 0
    receivedAt := 0 }

/-- A second concrete event, distinct from `sampleEvent`. -/
def otherEvent : NormalizedEvent :=
  { eventId := "evt-1"
    userId := "user-1"
    sessionId := "sess-1"
    type := .purchase
    payload := []
    occurredAt := 1
    receivedAt := 1 }

/-- Trace: one event is added to a fresh service, the flush timer fires and
extracts it, 5000 further events arrive while the flush is suspended at its
`await`, and the flush then fails, re-queueing its batch.  Used to probe the
emergency-threshold bound. -/
def overflowState : ServiceState :=
  endFlush 3000 false
    (addMany 2000 (List.replicate 5000 sampleEvent)
      (timerFire 1000 (addEvent 0 sampleEvent initialState)))

/-- Same trace as `overflowState` but the suspended flush succeeds, leaving a
quiescent service whose buffer holds exactly `emergencyThreshold` events. -/
def saturatedState : ServiceState :=
  endFlush 3000 true
    (addMany 2000 (List.replicate 5000 sampleEvent)
      (timerFire 1000 (addEvent 0 sampleEvent initialState)))

/-- A quiescent state holding 100 buffered events, used to evaluate
`getStats`. -/
def statsProbeState : ServiceState :=
  { buffer := List.replicate 100 sampleEvent
    flushTimer := none
    isFlushingInProgress := false
    inFlightBatch := none
    flushLog := [] }

/-- The state reached by adding one event to a fresh service and letting the
timer fire: the flush of `[sampleEvent]` is suspended at its `await`. -/
def inFlightProbeState : ServiceState :=
  { buffer := []
    flushTimer := none
    isFlushingInProgress := true
    inFlightBatch := some [sampleEvent]
    flushLog := [[sampleEvent]] }

/-- A quiescent state with one buffered event and an armed timer, used to
instantiate the drain theorem. -/
def drainProbeState : ServiceState :=
  { buffer := [sampleEvent]
    flushTimer := some 5
    isFlushingInProgress := false
    inFlightBatch := none
    flushLog := [] }

/-- A quiescent state whose buffer sits exactly at the emergency threshold,
used to instantiate the dropped-event theorems. -/
def dropProbeState : ServiceState :=
  { buffer := List.replicate emergencyThreshold sampleEvent
    flushTimer := none
    isFlushingInProgress := false
    inFlightBatch := none
    flushLog := [] }

/-- A quiescent state with two buffered events, used to instantiate the
batch-extraction theorem. -/
def extractProbeState : ServiceState :=
  { buffer := [sampleEvent, otherEvent]
    flushTimer := none
    isFlushingInProgress := false
    inFlightBatch := none
    flushLog := [] }

/-- A storage rejection that is not a duplicate-key conflict (code 121 is a
store-side document-validation failure) but is surfaced by the driver as a
bulk-write error. -/
def nonDuplicateBulkError : InsertOutcome :=
  .rejected 121 "MongoBulkWriteError"

/-! Helper lemmas about the embedded operations. -/

theorem endFlush_some_true (now : Nat) (s : ServiceState)
    (batch : List NormalizedEvent) (h : s.inFlightBatch = some batch) :
    endFlush now true s =
      { s with
        isFlushingInProgress := false
        inFlightBatch := none
        flushTimer := some (now + flushIntervalMs) } := by
  unfold endFlush
  rw [h]
  simp [resetFlushTimer]

theorem endFlush_some_false (now : Nat) (s : ServiceState)
    (batch : List NormalizedEvent) (h : s.inFlightBatch = some batch) :
    endFlush now false s =
      { s with
        buffer := batch ++ s.buffer
        isFlushingInProgress := false
        inFlightBatch := none
        flushTimer := some (now + flushIntervalMs) } := by
  unfold endFlush
  rw [h]
  simp [resetFlushTimer]

theorem addEvent_while_flushing (now : Nat) (e : NormalizedEvent)
    (s : ServiceState) (hf : s.isFlushingInProgress = true)
    (hlen : s.buffer.length < emergencyThreshold) :
    addEvent now e s =
      { s with
        buffer := s.buffer ++ [e]
        flushTimer := some (now + flushIntervalMs) } := by
  unfold addEvent
  rw [if_neg (by omega)]
  simp [hf, resetFlushTimer]

theorem addMany_while_flushing (now : Nat) :
    ∀ (es : List NormalizedEvent) (s : ServiceState),
      s.isFlushingInProgress = true →
      s.buffer.length + es.length ≤ emergencyThreshold →
      (addMany now es s).buffer = s.buffer ++ es ∧
      (addMany now es s).isFlushingInProgress = true ∧
      (addMany now es s).inFlightBatch = s.inFlightBatch ∧
      (addMany now es s).flushLog = s.flushLog
  | [], s, hf, _ => by simp [addMany, hf]
  | e :: es, s, hf, hlen => by
    have hstep : addMany now (e :: es) s = addMany now es (addEvent now e s) := by
      simp [addMany, List.foldl]
    have hone : addEvent now e s =
        { s with
          buffer := s.buffer ++ [e]
          flushTimer := some (now + flushIntervalMs) } :=
      addEvent_while_flushing now e s hf (by simp at hlen; omega)
    have hrec :=
      addMany_while_flushing now es (addEvent now e s)
        (by rw [hone]; exact hf) (by rw [hone]; simp at hlen ⊢; omega)
    rw [hstep]
    refine ⟨?_, hrec.2.1, ?_, ?_⟩
    · rw [hrec.1, hone]
      simp
    · rw [hrec.2.2.1, hone]
    · rw [hrec.2.2.2, hone]

theorem reachable_addMany (now : Nat) :
    ∀ (es : List NormalizedEvent) {s : ServiceState},
      Reachable s → Reachable (addMany now es s)
  | [], s, h => by simpa [addMany] using h
  | e :: es, s, h => by
    have hstep : addMany now (e :: es) s = addMany now es (addEvent now e s) := by
      simp [addMany, List.foldl]
    rw [hstep]
    exact reachable_addMany now es (Reachable.add now e h)

/-- Inductive invariant of the service state: the buffer together with any
in-flight batch holds at most `emergencyThreshold + maxBufferSize` events, an
in-flight batch has at most `maxBufferSize` events, a batch is in flight only
while the mutex flag is held, and while the flag is held the buffer itself
holds at most `emergencyThreshold` events. -/
def BufferInv (s : ServiceState) : Prop :=
  s.buffer.length + (s.inFlightBatch.getD []).length ≤
      emergencyThreshold + maxBufferSize ∧
  (s.inFlightBatch.getD []).length ≤ maxBufferSize ∧
  (s.isFlushingInProgress = false → s.inFlightBatch = none) ∧
  (s.isFlushingInProgress = true → s.buffer.length ≤ emergencyThreshold)

theorem bufferInv_initial : BufferInv initialState := by
  simp [BufferInv, initialState]

theorem bufferInv_resetFlushTimer (now : Nat) (s : ServiceState)
    (h : BufferInv s) : BufferInv (resetFlushTimer now s) := h

theorem bufferInv_clearTimer (s : ServiceState) (h : BufferInv s) :
    BufferInv { s with flushTimer := none } := h

theorem bufferInv_beginFlush (s : ServiceState) (h : BufferInv s) :
    BufferInv (beginFlush s) := by
  obtain ⟨h1, h2, h3, h4⟩ := h
  unfold beginFlush
  split
  · exact ⟨h1, h2, h3, h4⟩
  · rename_i hflush
    split
    · exact ⟨h1, h2, h3, h4⟩
    · have hfalse : s.isFlushingInProgress = false := by
        revert hflush
        cases s.isFlushingInProgress <;> simp
      have hnone := h3 hfalse
      rw [hnone] at h1
      simp only [Option.getD_none, List.length_nil, Nat.add_zero] at h1
      refine ⟨?_, ?_, ?_, ?_⟩
      · simp only [Option.getD_some, List.length_drop, List.length_take]
        omega
      · simp only [Option.getD_some, List.length_take]
        omega
      · intro hcontra
        simp at hcontra
      · intro _
        simp only [List.length_drop]
        omega

theorem bufferInv_endFlush (now : Nat) (success : Bool) (s : ServiceState)
    (h : BufferInv s) : BufferInv (endFlush now success s) := by
  obtain ⟨h1, h2, h3, h4⟩ := h
  cases hin : s.inFlightBatch with
  | none =>
    unfold endFlush
    rw [hin]
    exact ⟨h1, h2, h3, h4⟩
  | some batch =>
    have hflush : s.isFlushingInProgress = true := by
      by_contra hc
      have hfalse : s.isFlushingInProgress = false := by
        revert hc
        cases s.isFlushingInProgress <;> simp
      rw [h3 hfalse] at hin
      exact Option.noConfusion hin
    have hbuf := h4 hflush
    rw [hin] at h1 h2
    simp only [Option.getD_some] at h1 h2
    cases success with
    | true =>
      rw [endFlush_some_true now s batch hin]
      refine ⟨?_, ?_, ?_, ?_⟩
      · simp only [Option.getD_none, List.length_nil]
        omega
      · simp only [Option.getD_none, List.length_nil]
        omega
      · intro _
        rfl
      · intro hcontra
        exact absurd hcontra (by simp)
    | false =>
      rw [endFlush_some_false now s batch hin]
      refine ⟨?_, ?_, ?_, ?_⟩
      · simp only [Option.getD_none, List.length_nil, List.length_append]
        omega
      · simp only [Option.getD_none, List.length_nil]
        omega
      · intro _
        rfl
      · intro hcontra
        exact absurd hcontra (by simp)

theorem bufferInv_addEvent (now : Nat) (e : NormalizedEvent)
    (s : ServiceState) (h : BufferInv s) : BufferInv (addEvent now e s) := by
  obtain ⟨h1, h2, h3, h4⟩ := h
  unfold addEvent
  split
  · exact ⟨h1, h2, h3, h4⟩
  · rename_i hroom
    have hlt : s.buffer.length < emergencyThreshold := by omega
    have hpush : BufferInv { s with buffer := s.buffer ++ [e] } := by
      refine ⟨?_, h2, h3, ?_⟩
      · simp only [List.length_append, List.length_singleton]
        by_cases hf : s.isFlushingInProgress = true
        · have := h4 hf
          omega
        · have hfalse : s.isFlushingInProgress = false := by
            revert hf
            cases s.isFlushingInProgress <;> simp
          rw [h3 hfalse]
          simp only [Option.getD_none, List.length_nil]
          omega
      · intro _
        simp only [List.length_append, List.length_singleton]
        omega
    apply bufferInv_resetFlushTimer
    split
    · exact bufferInv_beginFlush _ hpush
    · exact hpush

theorem bufferInv_timerFire (now : Nat) (s : ServiceState)
    (h : BufferInv s) : BufferInv (timerFire now s) := by
  unfold timerFire
  split
  · have hclear : BufferInv { s with flushTimer := none } := h
    dsimp only
    split
    · exact bufferInv_beginFlush _ hclear
    · exact hclear
  · exact h

theorem beginFlush_run (s : ServiceState)
    (hf : s.isFlushingInProgress = false) (hne : s.buffer ≠ []) :
    beginFlush s =
      { s with
        isFlushingInProgress := true
        inFlightBatch := some (s.buffer.take maxBufferSize)
        buffer := s.buffer.drop maxBufferSize
        flushLog := s.flushLog ++ [s.buffer.take maxBufferSize] } := by
  unfold beginFlush
  rw [hf]
  simp [List.length_eq_zero, hne]

theorem flushCycle_success (now : Nat) (s : ServiceState)
    (hf : s.isFlushingInProgress = false) (hne : s.buffer ≠ []) :
    endFlush now true (beginFlush s) =
      { buffer := s.buffer.drop maxBufferSize
        flushTimer := some (now + flushIntervalMs)
        isFlushingInProgress := false
        inFlightBatch := none
        flushLog := s.flushLog ++ [s.buffer.take maxBufferSize] } := by
  rw [beginFlush_run s hf hne,
    endFlush_some_true now _ (s.buffer.take maxBufferSize) rfl]

theorem flushCycle_failure (now : Nat) (s : ServiceState)
    (hf : s.isFlushingInProgress = false) (hne : s.buffer ≠ []) :
    endFlush now false (beginFlush s) =
      { buffer := s.buffer
        flushTimer := some (now + flushIntervalMs)
        isFlushingInProgress := false
        inFlightBatch := none
        flushLog := s.flushLog ++ [s.buffer.take maxBufferSize] } := by
  rw [beginFlush_run s hf hne,
    endFlush_some_false now _ (s.buffer.take maxBufferSize) rfl]
  simp [List.take_append_drop]

theorem forceFlushLoop_drains (now : Nat) :
    ∀ (sched : List Bool) (s : ServiceState),
      s.isFlushingInProgress = false →
      s.inFlightBatch = none →
      (s.buffer.length + (maxBufferSize - 1)) / maxBufferSize ≤
        sched.count true →
      ∃ s2, forceFlushLoop now sched s = some s2 ∧ s2.buffer = [] ∧
        s2.isFlushingInProgress = false
  | [], s, hf, _, hc => by
    have h0 : s.buffer.length = 0 := by
      simp only [List.count_nil, maxBufferSize] at hc
      omega
    refine ⟨s, ?_, List.length_eq_zero.mp h0, hf⟩
    simp [forceFlushLoop, h0]
  | ok :: rest, s, hf, hin, hc => by
    by_cases hempty : s.buffer.length = 0
    · refine ⟨s, ?_, List.length_eq_zero.mp hempty, hf⟩
      simp [forceFlushLoop, hempty]
    · have hne : s.buffer ≠ [] := fun h => hempty (by simp [h])
      have hcycle : (endFlush now ok (beginFlush s)).isFlushingInProgress =
            false ∧
          (endFlush now ok (beginFlush s)).inFlightBatch = none ∧
          (((endFlush now ok (beginFlush s)).buffer.length +
            (maxBufferSize - 1)) / maxBufferSize) ≤ rest.count true := by
        cases ok with
        | true =>
          rw [flushCycle_success now s hf hne]
          have hc2 : (s.buffer.length + (maxBufferSize - 1)) / maxBufferSize ≤
              rest.count true + 1 := by
            simpa [List.count_cons] using hc
          refine ⟨rfl, rfl, ?_⟩
          simp only [List.length_drop, maxBufferSize] at hc2 ⊢
          omega
        | false =>
          rw [flushCycle_failure now s hf hne]
          have hc2 : (s.buffer.length + (maxBufferSize - 1)) / maxBufferSize ≤
              rest.count true := by
            simpa [List.count_cons] using hc
          exact ⟨rfl, rfl, hc2⟩
      obtain ⟨hf2, hin2, hcount⟩ := hcycle
      obtain ⟨s2, hrun, hb2, hf3⟩ :=
        forceFlushLoop_drains now rest (endFlush now ok (beginFlush s))
          hf2 hin2 hcount
      refine ⟨s2, ?_, hb2, hf3⟩
      simp only [forceFlushLoop, hempty, if_neg hempty]
      exact hrun

theorem reachable_bufferInv {s : ServiceState} (h : Reachable s) :
    BufferInv s := by
  induction h with
  | init => exact bufferInv_initial
  | add now e _ ih => exact bufferInv_addEvent now e _ ih
  | timer now _ ih => exact bufferInv_timerFire now _ ih
  | flushStart _ ih => exact bufferInv_beginFlush _ ih
  | flushEnd now success _ ih => exact bufferInv_endFlush now success _ ih
  | clearTimer _ ih => exact bufferInv_clearTimer _ ih

theorem timerFire_after_first_add :
    timerFire 1000 (addEvent 0 sampleEvent initialState) =
      inFlightProbeState := by
  decide

theorem reachable_inFlightProbeState : Reachable inFlightProbeState := by
  rw [← timerFire_after_first_add]
  exact Reachable.timer _ (Reachable.add 0 sampleEvent Reachable.init)

theorem flushAfterArrivals_true (t1 t2 : Nat) (es : List NormalizedEvent)
    (s : ServiceState) (hf : s.isFlushingInProgress = true)
    (hlen : s.buffer.length + es.length ≤ emergencyThreshold)
    (bs : List NormalizedEvent) (hin : s.inFlightBatch = some bs) :
    (endFlush t2 true (addMany t1 es s)).buffer = s.buffer ++ es ∧
    (endFlush t2 true (addMany t1 es s)).isFlushingInProgress = false := by
  obtain ⟨hb, hfl, hinm, hlog⟩ := addMany_while_flushing t1 es s hf hlen
  rw [endFlush_some_true t2 _ bs (hinm.trans hin)]
  exact ⟨hb, rfl⟩

theorem flushAfterArrivals_false (t1 t2 : Nat) (es : List NormalizedEvent)
    (s : ServiceState) (hf : s.isFlushingInProgress = true)
    (hlen : s.buffer.length + es.length ≤ emergencyThreshold)
    (bs : List NormalizedEvent) (hin : s.inFlightBatch = some bs) :
    (endFlush t2 false (addMany t1 es s)).buffer = bs ++ (s.buffer ++ es) ∧
    (endFlush t2 false (addMany t1 es s)).isFlushingInProgress = false := by
  obtain ⟨hb, hfl, hinm, hlog⟩ := addMany_while_flushing t1 es s hf hlen
  rw [endFlush_some_false t2 _ bs (hinm.trans hin)]
  exact ⟨by rw [hb], rfl⟩

theorem arrivals_fit :
    inFlightProbeState.buffer.length +
      (List.replicate 5000 sampleEvent).length ≤ emergencyThreshold := by
  simp only [inFlightProbeState, List.length_nil, List.length_replicate,
    emergencyThreshold]
  omega

theorem overflowState_buffer :
    overflowState.buffer = sampleEvent :: List.replicate 5000 sampleEvent :=
  ((flushAfterArrivals_false 2000 3000 (List.replicate 5000 sampleEvent)
      inFlightProbeState rfl arrivals_fit [sampleEvent] rfl).1).trans rfl

theorem saturatedState_buffer :
    saturatedState.buffer = List.replicate 5000 sampleEvent :=
  ((flushAfterArrivals_true 2000 3000 (List.replicate 5000 sampleEvent)
      inFlightProbeState rfl arrivals_fit [sampleEvent] rfl).1).trans rfl

/-! Claim theorems. -/

/-- C9 (counterexample): the claim says the buffer length never exceeds the
emergency threshold (5000) in any reachable state.  This is false: starting
from the empty service, add one event, let the timer fire (extracting a
1-event batch whose flush suspends at its `await`), accept 5000 further
events while the flush is in flight, and let the flush fail; the `catch`
block re-queues the batch, leaving 5001 events in the buffer. -/
theorem reachable_exceeds_emergency_threshold :
    Reachable overflowState ∧ overflowState.buffer.length = 5001 ∧
    emergencyThreshold < overflowState.buffer.length := by
  refine ⟨?_, ?_, ?_⟩
  · unfold overflowState
    exact Reachable.flushEnd 3000 false
      (reachable_addMany 2000 _
        (Reachable.timer 1000 (Reachable.add 0 sampleEvent Reachable.init)))
  · rw [overflowState_buffer]
    simp only [List.length_cons, List.length_replicate]
  · rw [overflowState_buffer]
    simp only [List.length_cons, List.length_replicate, emergencyThreshold]
    omega

/-- C9 (amended): in every reachable state the buffer holds at most
`emergencyThreshold + maxBufferSize` (5500) events: `addEvent` refuses to
append once the buffer is at or above `emergencyThreshold`, an in-flight
batch holds at most `maxBufferSize` events, and failed-flush re-insertion
only restores that batch, so the re-insertion can overshoot the emergency
threshold by at most one batch. -/
theorem reachable_buffer_bounded {s : ServiceState} (h : Reachable s) :
    s.buffer.length ≤ emergencyThreshold + maxBufferSize := by
  have inv := (reachable_bufferInv h).1
  omega

theorem reachable_buffer_bounded_witness :
    Reachable initialState ∧
    initialState.buffer.length ≤ emergencyThreshold + maxBufferSize :=
  ⟨Reachable.init, reachable_buffer_bounded Reachable.init⟩

/-- C1 (code_bug evidence): the claim says the core never silently discards
a submitted event and that rejection, not dropping, is the overflow policy.
The code of `addEvent` (lines 53-66) silently drops: in the reachable state
`saturatedState`, whose buffer holds exactly `emergencyThreshold` events,
`addEvent` returns the state unchanged — the submitted event is neither
buffered nor signalled to the caller.  The test suite of the repository
expects the rejection behavior instead. -/
theorem addEvent_silently_drops_at_emergency_threshold :
    Reachable saturatedState ∧
    saturatedState.buffer.length = emergencyThreshold ∧
    addEvent 4000 otherEvent saturatedState = saturatedState ∧
    otherEvent ∉ saturatedState.buffer := by
  have hb := saturatedState_buffer
  refine ⟨?_, ?_, ?_, ?_⟩
  · unfold saturatedState
    exact Reachable.flushEnd 3000 true
      (reachable_addMany 2000 _
        (Reachable.timer 1000 (Reachable.add 0 sampleEvent Reachable.init)))
  · rw [hb]
    simp only [List.length_replicate, emergencyThreshold]
  · unfold addEvent
    rw [if_pos (by rw [hb]; simp only [List.length_replicate]; exact le_refl _)]
  · rw [hb]
    intro hmem
    exact absurd (List.eq_of_mem_replicate hmem) (by decide)

/-- C2: the admission check `canAcceptEvent` returns true exactly when the
queue length is strictly below `backpressureThreshold` and false exactly at
or above it, and it is a pure read: its state-passing form returns the state
it was given, so checking cannot change the result until the next add.
(`canAcceptEvent` is modelled from the spec; its implementation is not among
the provided sources.) -/
theorem canAcceptEvent_backpressure_boundary (s : ServiceState) :
    (canAcceptEvent s = true ↔ s.buffer.length < backpressureThreshold) ∧
    (canAcceptEvent s = false ↔ backpressureThreshold ≤ s.buffer.length) ∧
    canAcceptEventSt s = (canAcceptEvent s, s) := by
  refine ⟨?_, ?_, rfl⟩
  · simp [canAcceptEvent]
  · simp [canAcceptEvent]

/-- C4: a flush that proceeds (mutex free, buffer non-empty) extracts exactly
`min maxBufferSize (queue length)` events from the head of the queue as one
batch, in queue order; the batch concatenated with the remaining queue is the
pre-extraction queue (nothing read twice, nothing dropped), and exactly that
batch is handed to the executor. -/
theorem flush_extracts_batch_atomically (s : ServiceState)
    (hf : s.isFlushingInProgress = false) (hne : s.buffer ≠ []) :
    (beginFlush s).inFlightBatch = some (s.buffer.take maxBufferSize) ∧
    (s.buffer.take maxBufferSize).length = min maxBufferSize s.buffer.length ∧
    s.buffer.take maxBufferSize ++ (beginFlush s).buffer = s.buffer ∧
    (beginFlush s).flushLog = s.flushLog ++ [s.buffer.take maxBufferSize] := by
  rw [beginFlush_run s hf hne]
  refine ⟨rfl, ?_, ?_, rfl⟩
  · simp [List.length_take]
  · exact List.take_append_drop _ _

theorem flush_extracts_batch_atomically_witness :
    (extractProbeState.isFlushingInProgress = false ∧
      extractProbeState.buffer ≠ []) ∧
    ((beginFlush extractProbeState).inFlightBatch =
        some (extractProbeState.buffer.take maxBufferSize) ∧
      (extractProbeState.buffer.take maxBufferSize).length =
        min maxBufferSize extractProbeState.buffer.length ∧
      extractProbeState.buffer.take maxBufferSize ++
          (beginFlush extractProbeState).buffer = extractProbeState.buffer ∧
      (beginFlush extractProbeState).flushLog =
        extractProbeState.flushLog ++
          [extractProbeState.buffer.take maxBufferSize]) :=
  ⟨⟨rfl, by decide⟩,
    flush_extracts_batch_atomically extractProbeState rfl (by decide)⟩

/-- C8 (code_bug evidence): the claim says `getStats` returns the queue
length, the active flush count, the four configuration constants, and a
utilization ratio equal to queue length / backpressureThreshold.  The code
(lines 236-244) returns the queue length, the boolean mutex flag, only two
configuration constants (`maxBufferSize` and `emergencyThreshold`), and a
utilization computed against `maxBufferSize`: at 100 buffered events it
reports 20 (percent of a 500-event batch), while queue length divided by the
backpressure threshold would be 1/100.  The test suite of the repository
expects the four-constant shape instead. -/
theorem getStats_shape_at_concrete_state :
    (getStats statsProbeState).bufferSize = 100 ∧
    (getStats statsProbeState).isFlushingInProgress = false ∧
    (getStats statsProbeState).maxBufferSize = 500 ∧
    (getStats statsProbeState).emergencyThreshold = 5000 ∧
    (getStats statsProbeState).bufferUtilization = 20 ∧
    ((statsProbeState.buffer.length : ℚ) / (backpressureThreshold : ℚ))
        = 1 / 100 ∧
    (getStats statsProbeState).bufferUtilization ≠
      (statsProbeState.buffer.length : ℚ) / (backpressureThreshold : ℚ) := by
  have hlen : statsProbeState.buffer.length = 100 := by
    simp only [statsProbeState, List.length_replicate]
  refine ⟨hlen, rfl, rfl, rfl, ?_, ?_, ?_⟩
  · show ((statsProbeState.buffer.length : ℚ) / (maxBufferSize : ℚ)) * 100
        = 20
    rw [hlen]
    norm_num [maxBufferSize]
  · rw [hlen]
    norm_num [backpressureThreshold]
  · show ((statsProbeState.buffer.length : ℚ) / (maxBufferSize : ℚ)) * 100
        ≠ (statsProbeState.buffer.length : ℚ) / (backpressureThreshold : ℚ)
    rw [hlen]
    norm_num [maxBufferSize, backpressureThreshold]

/-- C10: `addEvent` resolves with no error and no caller-visible signal both
when the event is buffered and when it is dropped at the emergency
threshold; consequently, for any state the admission check lets through
(queue below `backpressureThreshold`), the ingestion endpoint answers
202 Accepted with the event id — including states at or above the emergency
threshold, where the event was in fact dropped and the service state is
completely unchanged. -/
theorem ingest_responds_202_for_dropped_event (now : Nat)
    (e : NormalizedEvent) (s : ServiceState)
    (hcap : s.buffer.length < backpressureThreshold) :
    (ingestEvent now e s).1 = { status := 202, eventIds := [e.eventId] } ∧
    (emergencyThreshold ≤ s.buffer.length →
      (ingestEvent now e s).2 = s ∧ addEvent now e s = s) := by
  have hacc : canAcceptEvent s = true := by
    simp only [canAcceptEvent, decide_eq_true_eq]
    exact hcap
  have hdrop : ∀ h : emergencyThreshold ≤ s.buffer.length,
      addEvent now e s = s := by
    intro h
    unfold addEvent
    rw [if_pos h]
  unfold ingestEvent
  rw [hacc]
  refine ⟨by simp, fun h => ⟨?_, hdrop h⟩⟩
  simp only [Bool.true_eq_false, if_false]
  exact hdrop h

theorem ingest_responds_202_for_dropped_event_witness :
    dropProbeState.buffer.length < backpressureThreshold ∧
    ((ingestEvent 7 otherEvent dropProbeState).1 =
        { status := 202, eventIds := [otherEvent.eventId] } ∧
      (emergencyThreshold ≤ dropProbeState.buffer.length →
        (ingestEvent 7 otherEvent dropProbeState).2 = dropProbeState ∧
        addEvent 7 otherEvent dropProbeState = dropProbeState)) :=
  ⟨by simp only [dropProbeState, List.length_replicate, emergencyThreshold,
      backpressureThreshold]; omega,
    ingest_responds_202_for_dropped_event 7 otherEvent dropProbeState
      (by simp only [dropProbeState, List.length_replicate,
        emergencyThreshold, backpressureThreshold]; omega)⟩

/-- C5: from any quiescent state (no flush suspended mid-await, which is
what the busy-wait loop in the source establishes), if the schedule of
storage outcomes contains at least ⌈queue length / maxBufferSize⌉ successes
— the "storage eventually succeeds" hypothesis — then `forceFlush`
terminates with the queue empty.  The timer is cleared before the loop and
each flush is awaited before the next iteration, so `forceFlush` returns
only after the last flush has completed. -/
theorem forceFlush_drains (now : Nat) (sched : List Bool) (s : ServiceState)
    (hf : s.isFlushingInProgress = false) (hin : s.inFlightBatch = none)
    (hsched : (s.buffer.length + (maxBufferSize - 1)) / maxBufferSize ≤
      sched.count true) :
    ∃ s2, forceFlush now sched s = some s2 ∧ s2.buffer = [] ∧
      s2.isFlushingInProgress = false := by
  unfold forceFlush
  exact forceFlushLoop_drains now sched _ hf hin hsched

theorem forceFlush_drains_witness :
    (drainProbeState.isFlushingInProgress = false ∧
      drainProbeState.inFlightBatch = none ∧
      (drainProbeState.buffer.length + (maxBufferSize - 1)) / maxBufferSize ≤
        ([true] : List Bool).count true) ∧
    ∃ s2, forceFlush 9 [true] drainProbeState = some s2 ∧ s2.buffer = [] ∧
      s2.isFlushingInProgress = false :=
  ⟨⟨rfl, rfl, by decide⟩,
    forceFlush_drains 9 [true] drainProbeState rfl rfl (by decide)⟩

/-- C6 (counterexample): the claim says only duplicate-key conflicts are
classified as success and every other storage error is a failure that
re-queues the batch.  The classification in `bulkInsert` (lines 56-67) also
swallows any rejection whose `name` is `MongoBulkWriteError` regardless of
its code: a store-side rejection with code 121 (document validation failure)
surfaced as a bulk-write error is treated as success, so the in-flight batch
`[sampleEvent]` is discarded instead of being re-queued. -/
theorem bulkWriteError_discards_nonduplicate_batch :
    nonDuplicateBulkError = InsertOutcome.rejected 121 "MongoBulkWriteError" ∧
    (121 : Int) ≠ 11000 ∧
    bulkInsert nonDuplicateBulkError = Except.ok () ∧
    completeFlush 40 nonDuplicateBulkError inFlightProbeState =
      endFlush 40 true inFlightProbeState ∧
    (completeFlush 40 nonDuplicateBulkError inFlightProbeState).buffer =
      [] ∧
    Reachable inFlightProbeState :=
  ⟨rfl, by decide, rfl, by decide, by decide,
    reachable_inFlightProbeState⟩

/-- C6 (amended): a flush outcome is classified as success — the batch is
discarded, not re-queued — exactly when the storage call resolves, or
rejects with code 11000 (duplicate key), or rejects with an error named
`MongoBulkWriteError` (any bulk-write error, duplicate or not); every other
rejection is a failure and the batch is re-inserted at the head of the
buffer. -/
theorem flush_outcome_classification (now : Nat) (code : Int)
    (errName : String) (batch : List NormalizedEvent) (s : ServiceState)
    (hin : s.inFlightBatch = some batch) :
    (completeFlush now InsertOutcome.resolved s).buffer = s.buffer ∧
    ((code = 11000 ∨ errName = "MongoBulkWriteError") →
      (completeFlush now (InsertOutcome.rejected code errName) s).buffer =
        s.buffer) ∧
    (code ≠ 11000 → errName ≠ "MongoBulkWriteError" →
      (completeFlush now (InsertOutcome.rejected code errName) s).buffer =
        batch ++ s.buffer) := by
  have hok : ∀ o : InsertOutcome, bulkInsert o = Except.ok () →
      completeFlush now o s = endFlush now true s := by
    intro o ho
    unfold completeFlush
    rw [ho]
  have herr : ∀ (o : InsertOutcome) (err : StorageError),
      bulkInsert o = Except.error err →
      completeFlush now o s = endFlush now false s := by
    intro o err ho
    unfold completeFlush
    rw [ho]
  refine ⟨?_, ?_, ?_⟩
  · rw [hok InsertOutcome.resolved rfl,
      endFlush_some_true now s batch hin]
  · intro h
    have hbi : bulkInsert (InsertOutcome.rejected code errName) =
        Except.ok () := by
      simp only [bulkInsert]
      rw [if_pos h]
    rw [hok _ hbi, endFlush_some_true now s batch hin]
  · intro h1 h2
    have hbi : bulkInsert (InsertOutcome.rejected code errName) =
        Except.error { code := code, name := errName } := by
      simp only [bulkInsert]
      rw [if_neg (not_or.mpr ⟨h1, h2⟩)]
    rw [herr _ _ hbi, endFlush_some_false now s batch hin]

theorem flush_outcome_classification_witness :
    inFlightProbeState.inFlightBatch = some [sampleEvent] ∧
    ((completeFlush 40 InsertOutcome.resolved inFlightProbeState).buffer =
        inFlightProbeState.buffer ∧
      (((11000 : Int) = 11000 ∨ "E11000 duplicate key" = "MongoBulkWriteError") →
        (completeFlush 40 (InsertOutcome.rejected 11000 "E11000 duplicate key")
            inFlightProbeState).buffer = inFlightProbeState.buffer) ∧
      ((11000 : Int) ≠ 11000 → "E11000 duplicate key" ≠ "MongoBulkWriteError" →
        (completeFlush 40 (InsertOutcome.rejected 11000 "E11000 duplicate key")
            inFlightProbeState).buffer =
          [sampleEvent] ++ inFlightProbeState.buffer)) :=
  ⟨rfl, flush_outcome_classification 40 11000 "E11000 duplicate key"
    [sampleEvent] inFlightProbeState rfl⟩

/-- C7: starting from an empty, idle service, adding one event buffers it
and arms the debounce timer `flushIntervalMs` in the future; letting that
timer fire with no further activity starts exactly one flush whose batch is
exactly that event, and after the storage call succeeds the queue is empty
(the flush log records exactly the single one-event batch).  A further add
re-arms the timer relative to the time of that add: the timer is a debounce,
not a fixed-rate clock. -/
theorem time_trigger_flushes_single_event (e e2 : NormalizedEvent)
    (t t2 t3 : Nat) :
    (addEvent t e initialState).buffer = [e] ∧
    (addEvent t e initialState).flushTimer = some (t + flushIntervalMs) ∧
    (timerFire (t + flushIntervalMs) (addEvent t e initialState)).flushLog
        = [[e]] ∧
    (endFlush t2 true (timerFire (t + flushIntervalMs)
        (addEvent t e initialState))).buffer = [] ∧
    (endFlush t2 true (timerFire (t + flushIntervalMs)
        (addEvent t e initialState))).flushLog = [[e]] ∧
    (addEvent t3 e2 (addEvent t e initialState)).flushTimer =
      some (t3 + flushIntervalMs) := by
  have h1 : addEvent t e initialState =
      { buffer := [e]
        flushTimer := some (t + flushIntervalMs)
        isFlushingInProgress := false
        inFlightBatch := none
        flushLog := [] } := rfl
  rw [h1]
  have h2 : timerFire (t + flushIntervalMs)
      ({ buffer := [e]
         flushTimer := some (t + flushIntervalMs)
         isFlushingInProgress := false
         inFlightBatch := none
         flushLog := [] } : ServiceState) =
      { buffer := []
        flushTimer := none
        isFlushingInProgress := true
        inFlightBatch := some [e]
        flushLog := [[e]] } := by
    unfold timerFire
    rw [if_pos rfl]
    rfl
  rw [h2]
  rw [endFlush_some_true t2 _ [e] rfl]
  exact ⟨rfl, rfl, rfl, rfl, rfl, rfl⟩

/-- C3: when a flush extracted from queue `q` fails while the events
`during` arrived during the attempt, the whole batch `q.take maxBufferSize`
is re-inserted at the head of the queue in its original order: the
post-failure queue is exactly the failed batch followed by the queue content
accumulated meanwhile (the pre-existing remainder `q.drop maxBufferSize`
followed by the arrivals), so no event of the batch is lost and the next
extraction starts with the failed batch. -/
theorem flush_failure_requeues_batch_at_head (t1 t2 : Nat)
    (q during : List NormalizedEvent) (tmr : Option Nat)
    (log : List (List NormalizedEvent)) (hne : q ≠ [])
    (hroom : (q.drop maxBufferSize).length + during.length ≤
      emergencyThreshold) :
    (endFlush t2 false (addMany t1 during (beginFlush
        { buffer := q, flushTimer := tmr, isFlushingInProgress := false,
          inFlightBatch := none, flushLog := log }))).buffer =
      q.take maxBufferSize ++ (q.drop maxBufferSize ++ during) ∧
    ((beginFlush (endFlush t2 false (addMany t1 during (beginFlush
        { buffer := q, flushTimer := tmr, isFlushingInProgress := false,
          inFlightBatch := none, flushLog := log })))).inFlightBatch.getD
          []).take (q.take maxBufferSize).length = q.take maxBufferSize := by
  have hB : beginFlush
      { buffer := q, flushTimer := tmr, isFlushingInProgress := false,
        inFlightBatch := none, flushLog := log } =
      { buffer := q.drop maxBufferSize
        flushTimer := tmr
        isFlushingInProgress := true
        inFlightBatch := some (q.take maxBufferSize)
        flushLog := log ++ [q.take maxBufferSize] } := by
    rw [beginFlush_run _ rfl hne]
  rw [hB]
  obtain ⟨hbuf, hfl⟩ := flushAfterArrivals_false t1 t2 during
    { buffer := q.drop maxBufferSize
      flushTimer := tmr
      isFlushingInProgress := true
      inFlightBatch := some (q.take maxBufferSize)
      flushLog := log ++ [q.take maxBufferSize] }
    rfl hroom (q.take maxBufferSize) rfl
  refine ⟨hbuf, ?_⟩
  have hqpos : 0 < q.length := List.length_pos.mpr hne
  have hPne : (endFlush t2 false (addMany t1 during
      ({ buffer := q.drop maxBufferSize
         flushTimer := tmr
         isFlushingInProgress := true
         inFlightBatch := some (q.take maxBufferSize)
         flushLog := log ++ [q.take maxBufferSize] } :
        ServiceState))).buffer ≠ [] := by
    rw [hbuf]
    intro hnil
    have h1 := (List.append_eq_nil.mp hnil).1
    have h2 := congrArg List.length h1
    simp only [List.length_take, List.length_nil, maxBufferSize] at h2
    omega
  rw [beginFlush_run _ hfl hPne]
  show ((endFlush t2 false (addMany t1 during
      ({ buffer := q.drop maxBufferSize
         flushTimer := tmr
         isFlushingInProgress := true
         inFlightBatch := some (q.take maxBufferSize)
         flushLog := log ++ [q.take maxBufferSize] } :
        ServiceState))).buffer.take maxBufferSize).take
      (q.take maxBufferSize).length = q.take maxBufferSize
  rw [hbuf, List.take_take]
  have hk : min (q.take maxBufferSize).length maxBufferSize =
      (q.take maxBufferSize).length := by
    simp only [List.length_take]
    omega
  rw [hk]
  exact List.take_left _ _

theorem flush_failure_requeues_batch_at_head_witness :
    (([sampleEvent] : List NormalizedEvent) ≠ [] ∧
      (([sampleEvent] : List NormalizedEvent).drop maxBufferSize).length +
        ([otherEvent] : List NormalizedEvent).length ≤ emergencyThreshold) ∧
    ((endFlush 20 false (addMany 10 [otherEvent] (beginFlush
        { buffer := [sampleEvent], flushTimer := none,
          isFlushingInProgress := false, inFlightBatch := none,
          flushLog := [] }))).buffer =
      ([sampleEvent] : List NormalizedEvent).take maxBufferSize ++
        (([sampleEvent] : List NormalizedEvent).drop maxBufferSize ++
          [otherEvent]) ∧
      ((beginFlush (endFlush 20 false (addMany 10 [otherEvent] (beginFlush
          { buffer := [sampleEvent], flushTimer := none,
            isFlushingInProgress := false, inFlightBatch := none,
            flushLog := [] })))).inFlightBatch.getD []).take
          (([sampleEvent] : List NormalizedEvent).take maxBufferSize).length =
        ([sampleEvent] : List NormalizedEvent).take maxBufferSize) :=
  ⟨⟨by decide, by decide⟩,
    flush_failure_requeues_batch_at_head 10 20 [sampleEvent] [otherEvent]
      none [] (by decide) (by decide)⟩

end EventPipeline
